import Mathlib

/-!
Shallow embedding of the two stateful components of `src/js/script.js`
(the page-enhancement script of pages-content.github.io):

* `DynamicNavbarBreakpoint` — measures rendered widths of the navbar's
  children and toggles the `navbar-expand-lg` layout class
  (`checkBreakpoint`, `init`).
* `ThemeManager` — persisted tri-state theme preference with a
  system-preference fallback (`themes`, `loadTheme`, `switchTheme`,
  `applyTheme`, `updateThemeUI`, and the media-query change handler
  registered by `listenForSystemThemeChanges`).

DOM reads/writes are modelled by explicit state records; `localStorage`
is an `Option String` (`none` = key absent, mirroring `getItem`
returning `null`); the `matchMedia` dark/light signal is an
`Option Bool` (`none` = the `matchMedia` API is unavailable, in which
case the optional chaining `window.matchMedia?.(...)` short-circuits to
`undefined`, which is falsy). Pixel widths are rationals (`offsetWidth`
values are numbers; the gap is obtained through `parseFloat`, which may
yield a fractional value or `NaN` — `NaN` is modelled as `none`).
Because `this.themes` is a plain object literal, the bracket lookup
`this.themes[x]` walks the prototype chain: the embedding distinguishes
own entries, truthy values inherited from `Object.prototype`
(`constructor`, `toString`, ...) and `undefined`.
-/

namespace PagesContent

/-! ## DynamicNavbarBreakpoint -/

/-- The widths read inside `checkBreakpoint` (lines 303–316 of
`src/js/script.js`): `offsetWidth` of the brand, the nav list and the
theme selector, the container's `clientWidth`, and the flex gap of
`.navbar-collapse`.  `gapStyle` models the two-stage read of the gap:
the outer `Option` is whether `.navbar-collapse` was found
(`none` = the element is missing, so the source uses the literal string
`'0px'`), and the inner `Option ℚ` is the result of
`parseFloat(getComputedStyle(navbarCollapse).gap)` (`none` = `NaN`,
e.g. the computed gap is the keyword `normal`). -/
structure Measurements where
  brandWidth : ℚ
  navbarNavWidth : ℚ
  themeSelectorWidth : ℚ
  gapStyle : Option (Option ℚ)
  containerWidth : ℚ
  deriving Repr, DecidableEq

/-- The slice of navbar DOM state that `checkBreakpoint` mutates:
whether the `navbar-expand-lg` class is on the navbar (`expandClass`,
`true` = expanded layout), plus an abstract payload `rest` for
everything the method does not touch. -/
structure NavDom (α : Type) where
  expandClass : Bool
  rest : α
  deriving Repr, DecidableEq

/-- `parseFloat` of the gap style string used at line 309–310:
if `.navbar-collapse` is missing the string is `'0px'`, which parses to
`0`; otherwise it is the computed gap, whose parse may be `NaN`
(`none`). -/
def parsedGap (m : Measurements) : Option ℚ :=
  match m.gapStyle with
  | some p => p
  | none => some 0

/-- `const gapWidth = parseFloat(gapStyle) || 8` (line 310).  JavaScript
`||` falls through to the default when the left operand is falsy, i.e.
when the parse is `NaN` or the parsed number is `0`. -/
def gapWidthOf (m : Measurements) : ℚ :=
  match parsedGap m with
  | some v => if v = 0 then 8 else v
  | none => 8

/-- `requiredWidth = brandWidth + navbarNavWidth + themeSelectorWidth
+ (2 * gapWidth)` (line 313). -/
def requiredWidthOf (m : Measurements) : ℚ :=
  m.brandWidth + m.navbarNavWidth + m.themeSelectorWidth + 2 * gapWidthOf m

/-- `const buffer = 5` (line 319): the safety buffer. -/
def buffer : ℚ := 5

/-- `DynamicNavbarBreakpoint.checkBreakpoint` (lines 299–334).
`measure` stands for the synchronous layout reads against the current
DOM state.  The method first adds `navbar-expand-lg`
(`this.navbar.classList.add`, line 301), then measures, then removes
the class when `requiredWidth + buffer > availableWidth` and (re-)adds
it otherwise.  The dropdown re-initialisation at line 332 touches no
modelled state (it is captured by `rest` being left unchanged). -/
def checkBreakpoint {α : Type} (measure : NavDom α → Measurements)
    (d : NavDom α) : NavDom α :=
  let d1 : NavDom α := { d with expandClass := true }
  let m := measure d1
  let gapWidth := gapWidthOf m
  let requiredWidth :=
    m.brandWidth + m.navbarNavWidth + m.themeSelectorWidth + 2 * gapWidth
  let availableWidth := m.containerWidth
  if requiredWidth + buffer > availableWidth then
    { d1 with expandClass := false }
  else
    { d1 with expandClass := true }

/-- Which of the four required elements the `DynamicNavbarBreakpoint`
constructor could locate (`querySelector` results at lines 276–279):
`true` = found. -/
structure EngineElems where
  container : Bool
  brand : Bool
  navbarNav : Bool
  themeSelector : Bool
  deriving Repr, DecidableEq

/-- The guard of `DynamicNavbarBreakpoint.init` (line 284): observers
are registered (and the delayed initial check scheduled) only when all
four elements were found. -/
def engineEnabled (e : EngineElems) : Bool :=
  e.container && e.brand && e.navbarNav && e.themeSelector

/-- The `console.warn` diagnostic emitted by `init` (line 285) when a
required element is missing; `none` when initialisation proceeds. -/
def initWarning (e : EngineElems) : Option String :=
  if engineEnabled e then none
  else some "DynamicNavbarBreakpoint: Missing required elements for measurement."

/-- Effect of a resize notification on the navbar DOM.  When `init`
bailed out, no `ResizeObserver` was registered, so the notification
reaches no callback and the DOM is untouched; otherwise the registered
callback runs `checkBreakpoint` (line 289). -/
def onResize {α : Type} (e : EngineElems) (measure : NavDom α → Measurements)
    (d : NavDom α) : NavDom α :=
  if engineEnabled e then checkBreakpoint measure d else d

/-! ## ThemeManager -/

/-- One entry of `this.themes` (lines 16–20). -/
structure ThemeData where
  name : String
  icon : String
  label : String
  deriving Repr, DecidableEq

/-- The own properties of the `this.themes` object literal
(lines 16–20): `some` of the entry for the three supported identifiers
and `none` otherwise. -/
def themesOwn (theme : String) : Option ThemeData :=
  if theme = "light" then some { name := "Light", icon := "bi-sun", label := "Light" }
  else if theme = "dark" then some { name := "Dark", icon := "bi-moon", label := "Dark" }
  else if theme = "high-contrast" then
    some { name := "High Contrast", icon := "bi-circle-half", label := "High Contrast" }
  else none

/-- Result of the JS bracket lookup `this.themes[x]`: an own property
of the object literal (a theme entry), a truthy value inherited from
`Object.prototype` (a function or object — e.g.
`this.themes['constructor']` is the `Object` function), or
`undefined`. -/
inductive ThemeLookup where
  | themeData : ThemeData → ThemeLookup
  | inherited : ThemeLookup
  | undef : ThemeLookup
  deriving Repr, DecidableEq

/-- The property names a plain object literal inherits from
`Object.prototype`; every one of them resolves to a truthy value
(a function, or for `__proto__` the prototype object itself). -/
def objectProtoProps : List String :=
  ["constructor", "hasOwnProperty", "isPrototypeOf", "propertyIsEnumerable",
   "toLocaleString", "toString", "valueOf", "__proto__",
   "__defineGetter__", "__defineSetter__", "__lookupGetter__", "__lookupSetter__"]

/-- `this.themes[theme]`: JS bracket lookup on the object literal walks
the prototype chain, so a miss on the own properties still yields a
truthy inherited value for the `Object.prototype` member names, and
`undefined` only otherwise. -/
def themes (theme : String) : ThemeLookup :=
  match themesOwn theme with
  | some d => ThemeLookup.themeData d
  | none => if theme ∈ objectProtoProps then ThemeLookup.inherited else ThemeLookup.undef

/-- JS truthiness of the lookup result: only `undefined` is falsy
(the inherited functions/objects are truthy). -/
def ThemeLookup.isTruthy : ThemeLookup → Bool
  | ThemeLookup.undef => false
  | _ => true

/-- `currentThemeData.label` as used in the template literal at
line 105 and `setAttribute`: reading `.label` off an inherited
function/object gives `undefined`, which stringifies to
`"undefined"` in string concatenation and `setAttribute`.  (The
`undef` case never feeds these reads: they sit behind the truthiness
guard.) -/
def lookupLabel : ThemeLookup → String
  | ThemeLookup.themeData d => d.label
  | _ => "undefined"

/-- `currentThemeData.icon` as used in the template literal at
line 108 (`undefined` stringifies to `"undefined"`). -/
def lookupIcon : ThemeLookup → String
  | ThemeLookup.themeData d => d.icon
  | _ => "undefined"

/-- `currentThemeData.label` as assigned to `textContent` at line 113:
`textContent` is a nullable DOMString, so assigning `undefined`
converts to `null`, which the setter treats as the empty string. -/
def lookupSpanText : ThemeLookup → String
  | ThemeLookup.themeData d => d.label
  | _ => ""

/-- The `#themeDropdown` button state touched by `updateThemeUI`:
its `aria-label`, the `className` of its `<i>` icon child (`none` = no
such child), and the text of its `#current-theme` span (`none` = no
such span). -/
structure ThemeButton where
  ariaLabel : String
  iconClass : Option String
  spanText : Option String
  deriving Repr, DecidableEq

/-- One `.theme-option` element: its `data-theme` value and whether it
carries the `active` class. -/
structure ThemeOption where
  theme : String
  active : Bool
  deriving Repr, DecidableEq

/-- The slice of the document that `applyTheme` and `updateThemeUI`
mutate: the root `data-bs-theme` attribute, the `href` of the
`#highlight-js-theme` link (`none` = element missing), the `src` of
the hero SVG (`none` = element missing), the `#themeDropdown` button
(`none` = element missing), and the `.theme-option` list. -/
structure Dom where
  dataBsTheme : String
  highlightHref : Option String
  heroSvgSrc : Option String
  themeButton : Option ThemeButton
  options : List ThemeOption
  deriving Repr, DecidableEq

/-- The light stylesheet URL of `updateCodeTheme` (line 95). -/
def lightCodeTheme : String :=
  "https://cdnjs.cloudflare.com/ajax/libs/highlight.js/11.11.1/styles/github.min.css"

/-- The dark stylesheet URL of `updateCodeTheme` (line 96). -/
def darkCodeTheme : String :=
  "https://cdnjs.cloudflare.com/ajax/libs/highlight.js/11.11.1/styles/github-dark.min.css"

/-- `ThemeManager.updateCodeTheme` (lines 91–99): no-op when the link
element is missing; otherwise the dark stylesheet for `dark` and
`high-contrast`, the light one otherwise. -/
def updateCodeTheme (theme : String) (d : Dom) : Dom :=
  match d.highlightHref with
  | none => d
  | some _ =>
    let href := if theme = "dark" ∨ theme = "high-contrast"
                then darkCodeTheme else lightCodeTheme
    { d with highlightHref := some href }

/-- The `switch` of `ThemeManager.updateHeroSvg` (lines 76–87). -/
def heroSvgPath (theme : String) : String :=
  if theme = "dark" then "/img/undraw_road_to_knowledge_dark.svg"
  else if theme = "high-contrast" then "/img/undraw_road_to_knowledge_high_contrast.svg"
  else "/img/undraw_road_to_knowledge_light.svg"

/-- `ThemeManager.updateHeroSvg` (lines 71–89): no-op when the hero SVG
element is missing. -/
def updateHeroSvg (theme : String) (d : Dom) : Dom :=
  match d.heroSvgSrc with
  | none => d
  | some _ => { d with heroSvgSrc := some (heroSvgPath theme) }

/-- `ThemeManager.applyTheme` (lines 65–69): set the root
`data-bs-theme` attribute, then swap the code stylesheet and the hero
illustration. -/
def applyTheme (theme : String) (d : Dom) : Dom :=
  updateHeroSvg theme (updateCodeTheme theme { d with dataBsTheme := theme })

/-- `option.classList.toggle('active', option.dataset.theme ===
this.currentTheme)` (line 117). -/
def setOptionActive (currentTheme : String) (o : ThemeOption) : ThemeOption :=
  { o with active := o.theme == currentTheme }

/-- `ThemeManager.updateThemeUI` (lines 101–119): when the dropdown
button exists and `this.themes[this.currentTheme]` is truthy
(`if (themeButton && currentThemeData)`), rewrite the button's
`aria-label`, icon class and span text from the looked-up value; then
recompute the `active` class of every `.theme-option`. -/
def updateThemeUI (currentTheme : String) (d : Dom) : Dom :=
  let cd := themes currentTheme
  let d1 :=
    match d.themeButton with
    | some btn =>
      if cd.isTruthy then
        let btn1 : ThemeButton :=
          { ariaLabel := "Thème actuel : " ++ lookupLabel cd,
            iconClass := btn.iconClass.map (fun _ => "bi " ++ lookupIcon cd ++ " me-1"),
            spanText := btn.spanText.map (fun _ => lookupSpanText cd) }
        { d with themeButton := some btn1 }
      else d
    | none => d
  { d1 with options := d1.options.map (setOptionActive currentTheme) }

/-- `applyCurrent` of the spec: `applyTheme` on the current variant
followed by `updateThemeUI` — the full push of the current theme to the
document, as performed by both `loadTheme`+`init` and `switchTheme`. -/
def applyCurrent (theme : String) (d : Dom) : Dom :=
  updateThemeUI theme (applyTheme theme d)

/-- The mutable state of a `ThemeManager` together with its collaborators:
`this.currentTheme`, the `preferred-theme` key of `localStorage`
(`none` = absent), and the themed slice of the document. -/
structure ThemeState where
  currentTheme : String
  storage : Option String
  dom : Dom
  deriving Repr, DecidableEq

/-- `window.matchMedia?.('(prefers-color-scheme: dark)').matches ?
'dark' : 'light'` (line 37).  `env = none` models an unavailable
`matchMedia`: optional chaining makes the whole expression `undefined`,
which is falsy, so the result is `'light'` and nothing throws. -/
def systemTheme (env : Option Bool) : String :=
  match env with
  | some true => "dark"
  | _ => "light"

/-- `ThemeManager.loadTheme` (lines 32–40): use the persisted value when
it is truthy (non-empty, `getItem` did not return `null`) and
`this.themes[savedTheme]` is truthy (prototype-chain lookup included);
otherwise fall back to the system signal; then apply the resolved
theme. -/
def loadTheme (env : Option Bool) (st : ThemeState) : ThemeState :=
  let t :=
    match st.storage with
    | some s => if (s != "") && (themes s).isTruthy then s else systemTheme env
    | none => systemTheme env
  { st with currentTheme := t, dom := applyTheme t st.dom }

/-- `ThemeManager.switchTheme` (lines 51–63): return early when
`this.themes[theme]` is falsy (`if (!this.themes[theme]) return;` —
note the prototype-chain lookup makes names like `constructor`
truthy); otherwise set the current theme, apply it, persist it and
refresh the switcher UI.  (The trailing `focus()` call touches no
modelled state.) -/
def switchTheme (theme : String) (st : ThemeState) : ThemeState :=
  if (themes theme).isTruthy then
    { currentTheme := theme,
      storage := some theme,
      dom := updateThemeUI theme (applyTheme theme st.dom) }
  else st

/-- `localStorage.getItem('preferred-theme')` coerced to a boolean, as
the `change` handler does with `!localStorage.getItem(...)` (line 123):
`null` and the empty string are falsy. -/
def storageTruthy : Option String → Bool
  | none => false
  | some s => s != ""

/-- The `change` handler that `listenForSystemThemeChanges` registers on
the dark-scheme media query (lines 121–127): when no truthy persisted
preference exists, switch to `dark`/`light` according to the event;
otherwise do nothing. -/
def onEnvironmentChange (isDark : Bool) (st : ThemeState) : ThemeState :=
  if storageTruthy st.storage then st
  else switchTheme (if isDark then "dark" else "light") st

/-! ## Normal forms used in statements and proofs -/

/-- The button update performed by `updateThemeUI`, isolated as a
function on the optional `#themeDropdown` state (used to state the
normal form of `updateThemeUI`). -/
def newButton (currentTheme : String) : Option ThemeButton → Option ThemeButton :=
  fun b =>
    match b with
    | some btn =>
      if (themes currentTheme).isTruthy then
        some { ariaLabel := "Thème actuel : " ++ lookupLabel (themes currentTheme),
               iconClass :=
                 btn.iconClass.map (fun _ => "bi " ++ lookupIcon (themes currentTheme) ++ " me-1"),
               spanText := btn.spanText.map (fun _ => lookupSpanText (themes currentTheme)) }
      else b
    | none => b

/-- The stylesheet `href` chosen by `updateCodeTheme` for a theme. -/
def codeHref (theme : String) : String :=
  if theme = "dark" ∨ theme = "high-contrast" then darkCodeTheme else lightCodeTheme

/-! ## Concrete fixtures (inputs for witnesses and examples) -/

/-- The spec's worked breakpoint example: brand 100, nav 300, theme
control 150, gap read as `8`, with a variable container width. -/
def specMeas (c : ℚ) : Measurements :=
  { brandWidth := 100, navbarNavWidth := 300, themeSelectorWidth := 150,
    gapStyle := some (some 8), containerWidth := c }

/-- Same measurements but the computed gap of `.navbar-collapse` reads
as `0` (a perfectly readable rendered value). -/
def gapZeroMeas : Measurements :=
  { brandWidth := 100, navbarNavWidth := 300, themeSelectorWidth := 150,
    gapStyle := some (some 0), containerWidth := 600 }

/-- Same measurements but `parseFloat` of the computed gap is `NaN`
(e.g. the computed style is the keyword `normal`). -/
def gapNanMeas : Measurements :=
  { brandWidth := 100, navbarNavWidth := 300, themeSelectorWidth := 150,
    gapStyle := some none, containerWidth := 600 }

/-- Same measurements with a readable non-default gap of `7`. -/
def gapSevenMeas : Measurements :=
  { brandWidth := 100, navbarNavWidth := 300, themeSelectorWidth := 150,
    gapStyle := some (some 7), containerWidth := 600 }

/-- A navbar DOM currently in collapsed layout, with no extra payload. -/
def navd0 : NavDom Unit := { expandClass := false, rest := () }

/-- An element query result where the `.container` lookup failed. -/
def missingElems : EngineElems :=
  { container := false, brand := true, navbarNav := true, themeSelector := true }

/-- A concrete page: all themed elements present, three options. -/
def dom1 : Dom :=
  { dataBsTheme := "light",
    highlightHref := some lightCodeTheme,
    heroSvgSrc := some "/img/undraw_road_to_knowledge_light.svg",
    themeButton := some { ariaLabel := "", iconClass := some "bi bi-sun me-1",
                          spanText := some "Light" },
    options := [ { theme := "light", active := true },
                 { theme := "dark", active := false },
                 { theme := "high-contrast", active := false } ] }

/-- A fresh manager state: no persisted preference. -/
def st0 : ThemeState := { currentTheme := "light", storage := none, dom := dom1 }

/-- A manager state with an explicitly persisted preference. -/
def stSaved : ThemeState := { currentTheme := "dark", storage := some "dark", dom := dom1 }

/-! ## Helper lemmas -/

/-- `checkBreakpoint` in closed form: the layout class ends up set iff
the required width plus the buffer fits in the container, all measured
on the expanded DOM. -/
theorem checkBreakpoint_eq {α : Type} (measure : NavDom α → Measurements)
    (d : NavDom α) :
    checkBreakpoint measure d =
      { expandClass :=
          decide (requiredWidthOf (measure { d with expandClass := true }) + buffer
            ≤ (measure { d with expandClass := true }).containerWidth),
        rest := d.rest } := by
  unfold checkBreakpoint requiredWidthOf
  dsimp only
  split_ifs with h
  · simp only [NavDom.mk.injEq]
    exact ⟨(decide_eq_false (not_le.mpr h)).symm, trivial⟩
  · simp only [NavDom.mk.injEq]
    exact ⟨(decide_eq_true (not_lt.mp h)).symm, trivial⟩

theorem themesOwn_isSome_iff (s : String) :
    (themesOwn s).isSome = true ↔ s = "light" ∨ s = "dark" ∨ s = "high-contrast" := by
  unfold themesOwn
  split_ifs <;> simp_all

theorem themes_ne_empty {s : String} (h : (themesOwn s).isSome = true) : s ≠ "" := by
  rcases (themesOwn_isSome_iff s).mp h with rfl | rfl | rfl <;> decide

theorem themesOwn_truthy {s : String} (h : (themesOwn s).isSome = true) :
    (themes s).isTruthy = true := by
  obtain ⟨d, hd⟩ := Option.isSome_iff_exists.mp h
  simp [themes, hd, ThemeLookup.isTruthy]

theorem onEnvironmentChange_saved (isDark : Bool) (st : ThemeState)
    (h : storageTruthy st.storage = true) : onEnvironmentChange isDark st = st := by
  simp [onEnvironmentChange, h]

theorem foldl_onEnvironmentChange_saved (evs : List Bool) (st : ThemeState)
    (h : storageTruthy st.storage = true) :
    evs.foldl (fun acc e => onEnvironmentChange e acc) st = st := by
  induction evs with
  | nil => rfl
  | cons e rest ih =>
    rw [List.foldl_cons, onEnvironmentChange_saved e st h]
    exact ih

theorem switchTheme_valid {v : String} (h : (themes v).isTruthy = true)
    (st : ThemeState) :
    switchTheme v st =
      { currentTheme := v, storage := some v,
        dom := updateThemeUI v (applyTheme v st.dom) } := by
  simp [switchTheme, h]

theorem applyTheme_eq (t : String) (d : Dom) :
    applyTheme t d =
      { dataBsTheme := t,
        highlightHref := d.highlightHref.map (fun _ => codeHref t),
        heroSvgSrc := d.heroSvgSrc.map (fun _ => heroSvgPath t),
        themeButton := d.themeButton,
        options := d.options } := by
  obtain ⟨bs, hl, hs, tb, op⟩ := d
  cases hl <;> cases hs <;> rfl

theorem updateThemeUI_eq (t : String) (d : Dom) :
    updateThemeUI t d =
      { dataBsTheme := d.dataBsTheme,
        highlightHref := d.highlightHref,
        heroSvgSrc := d.heroSvgSrc,
        themeButton := newButton t d.themeButton,
        options := d.options.map (setOptionActive t) } := by
  obtain ⟨bs, hl, hs, tb, op⟩ := d
  cases tb with
  | none => simp [updateThemeUI, newButton]
  | some btn =>
    by_cases h : (themes t).isTruthy = true <;>
      simp [updateThemeUI, newButton, h]

theorem newButton_idem (t : String) (b : Option ThemeButton) :
    newButton t (newButton t b) = newButton t b := by
  cases b with
  | none => simp [newButton]
  | some btn =>
    obtain ⟨a, ic, sp⟩ := btn
    by_cases h : (themes t).isTruthy = true
    · cases ic <;> cases sp <;> simp [newButton, h]
    · simp [newButton, h]

/-! ## Claims -/

/-- C1: for every measurement tuple, `checkBreakpoint` computes
`requiredWidth = brandWidth + navWidth + themeControlWidth + 2*gapWidth`
and ends with the expanded layout class iff
`requiredWidth + buffer ≤ containerWidth`; in particular the spec's
worked example (100/300/150/gap 8, buffer 5) is expanded at container
width 600 and collapsed at 560. -/
theorem checkBreakpoint_expand_decision :
    (∀ (m : Measurements) (d : NavDom Unit),
        (checkBreakpoint (fun _ => m) d).expandClass
          = decide (requiredWidthOf m + buffer ≤ m.containerWidth))
    ∧ (∀ m : Measurements, requiredWidthOf m
          = m.brandWidth + m.navbarNavWidth + m.themeSelectorWidth + 2 * gapWidthOf m)
    ∧ (checkBreakpoint (fun _ => specMeas 600) navd0).expandClass = true
    ∧ (checkBreakpoint (fun _ => specMeas 560) navd0).expandClass = false := by
  have hreq : ∀ c : ℚ, requiredWidthOf (specMeas c) = 566 := by
    intro c
    norm_num [requiredWidthOf, gapWidthOf, parsedGap, specMeas]
  refine ⟨?_, fun _ => rfl, ?_, ?_⟩
  · intro m d
    rw [checkBreakpoint_eq]
  · rw [checkBreakpoint_eq]
    simp only [decide_eq_true_eq]
    rw [hreq]
    norm_num [buffer, specMeas]
  · rw [checkBreakpoint_eq]
    simp only [decide_eq_false_iff_not, not_le]
    rw [hreq]
    norm_num [buffer, specMeas]

/-- C7: `checkBreakpoint` forces the expanded layout class before any
width is measured, so its outcome depends only on the measurements of
the expanded DOM and not on the collapse state left by the previous
invocation. -/
theorem checkBreakpoint_measures_expanded :
    ∀ (α : Type) (measure : NavDom α → Measurements) (d : NavDom α),
      checkBreakpoint measure d = checkBreakpoint measure { d with expandClass := true }
      ∧ checkBreakpoint measure d =
          { expandClass :=
              decide (requiredWidthOf (measure { d with expandClass := true }) + buffer
                ≤ (measure { d with expandClass := true }).containerWidth),
            rest := d.rest } := by
  intro α measure d
  refine ⟨?_, checkBreakpoint_eq measure d⟩
  rw [checkBreakpoint_eq, checkBreakpoint_eq]

/-- C6: when any of the container, brand, nav-links or theme-control
elements is missing at construction, `init` logs the diagnostic and
registers no observers, so no later resize notification mutates the
layout class. -/
theorem missing_elements_disable_engine :
    ∀ (e : EngineElems),
      e.container = false ∨ e.brand = false ∨ e.navbarNav = false
        ∨ e.themeSelector = false →
      initWarning e
          = some "DynamicNavbarBreakpoint: Missing required elements for measurement."
      ∧ ∀ (α : Type) (measure : NavDom α → Measurements) (d : NavDom α),
          onResize e measure d = d := by
  intro e h
  have hd : engineEnabled e = false := by
    rcases h with h | h | h | h <;> simp [engineEnabled, h]
  exact ⟨by simp [initWarning, hd], fun α measure d => by simp [onResize, hd]⟩

/-- C6 witness: a concrete engine with a missing container is inert. -/
theorem missing_elements_disable_engine_witness :
    initWarning missingElems
        = some "DynamicNavbarBreakpoint: Missing required elements for measurement."
    ∧ onResize missingElems (fun _ => specMeas 600) navd0 = navd0 :=
  ⟨(missing_elements_disable_engine missingElems (Or.inl rfl)).1,
   (missing_elements_disable_engine missingElems (Or.inl rfl)).2 Unit
     (fun _ => specMeas 600) navd0⟩

/-- C8 counterexample: the rendered gap is perfectly readable and reads
`0`, yet the gap used in the computation is the default `8`, so the
used gap does not equal the value read from the rendered layout. -/
theorem gapWidth_read_zero_counterexample :
    gapZeroMeas.gapStyle = some (some 0)
    ∧ gapWidthOf gapZeroMeas = 8
    ∧ gapWidthOf gapZeroMeas ≠ 0 := by
  refine ⟨rfl, by norm_num [gapWidthOf, parsedGap, gapZeroMeas], ?_⟩
  norm_num [gapWidthOf, parsedGap, gapZeroMeas]

/-- C8 (amended): the gap used by `checkBreakpoint` equals the value
read from the rendered layout whenever that value parses to a nonzero
number, and equals the fixed default `8` when the gap parses to `0`,
fails to parse (`NaN`), or cannot be read because `.navbar-collapse`
is missing. -/
theorem gapWidthOf_fallback :
    ∀ (m : Measurements),
      (∀ v : ℚ, m.gapStyle = some (some v) → v ≠ 0 → gapWidthOf m = v)
      ∧ (m.gapStyle = some (some 0) ∨ m.gapStyle = some none ∨ m.gapStyle = none →
          gapWidthOf m = 8) := by
  intro m
  constructor
  · intro v hv hne
    simp [gapWidthOf, parsedGap, hv, hne]
  · rintro (h | h | h) <;> simp [gapWidthOf, parsedGap, h]

/-- C8 witness: a readable gap of 7 is used as-is; a `NaN` parse falls
back to 8. -/
theorem gapWidthOf_fallback_witness :
    gapSevenMeas.gapStyle = some (some 7)
    ∧ (7:ℚ) ≠ 0
    ∧ gapWidthOf gapSevenMeas = 7
    ∧ gapNanMeas.gapStyle = some none
    ∧ gapWidthOf gapNanMeas = 8 :=
  ⟨rfl, by norm_num, (gapWidthOf_fallback gapSevenMeas).1 7 rfl (by norm_num),
   rfl, (gapWidthOf_fallback gapNanMeas).2 (Or.inr (Or.inl rfl))⟩

/-- C2: for every supported variant `v`, `switchTheme v` followed by
`loadTheme` against the same persisted store resolves the current
variant back to `v`. -/
theorem switchTheme_then_loadTheme_roundtrip :
    ∀ (v : String), (themesOwn v).isSome = true →
      ∀ (st : ThemeState) (env : Option Bool),
        (loadTheme env (switchTheme v st)).currentTheme = v := by
  intro v hv st env
  rcases (themesOwn_isSome_iff v).mp hv with rfl | rfl | rfl <;> rfl

/-- C2 witness: the round trip at the concrete variant `dark`. -/
theorem switchTheme_then_loadTheme_roundtrip_witness :
    (themesOwn "dark").isSome = true
    ∧ (loadTheme none (switchTheme "dark" st0)).currentTheme = "dark" :=
  ⟨rfl, switchTheme_then_loadTheme_roundtrip "dark" rfl st0 none⟩

/-- C3 is false of the code: `this.themes['constructor']` resolves
through the prototype chain to the truthy `Object` function, so the
guard `if (!this.themes[theme]) return;` at line 52 does not return and
`switchTheme "constructor"` changes the current variant, the applied
DOM theme state and the persisted preference — not a silent no-op.
This theorem evaluates the embedded code at that failing input. -/
theorem switchTheme_proto_key_mutates :
    (themesOwn "constructor").isNone = true
    ∧ (themes "constructor").isTruthy = true
    ∧ (switchTheme "constructor" st0).currentTheme = "constructor"
    ∧ (switchTheme "constructor" st0).storage = some "constructor"
    ∧ (switchTheme "constructor" st0).dom.dataBsTheme = "constructor"
    ∧ switchTheme "constructor" st0 ≠ st0 := by
  refine ⟨rfl, rfl, rfl, rfl, rfl, ?_⟩
  decide

/-- C4's "unrecognized persisted value is treated as absent" leg is
false of the code: a persisted `'constructor'` makes
`savedTheme && this.themes[savedTheme]` at line 34 truthy (prototype
chain), so `loadTheme` adopts it instead of falling back to the
environment signal.  This theorem evaluates the embedded code at that
failing input: with a dark environment signal the fallback would give
`dark`, but the persisted prototype name wins. -/
theorem loadTheme_proto_key_adopted :
    (themesOwn "constructor").isNone = true
    ∧ (loadTheme (some true)
        { st0 with storage := some "constructor" }).currentTheme = "constructor"
    ∧ (loadTheme (some true) { st0 with storage := none }).currentTheme = "dark"
    ∧ ("constructor" : String) ≠ "dark" := by
  refine ⟨rfl, rfl, rfl, ?_⟩
  decide

/-- C9: pushing the current variant to the document
(`applyTheme` followed by `updateThemeUI`) is idempotent: a second run
from any starting DOM state produces the identical DOM end-state. -/
theorem applyCurrent_idem :
    ∀ (t : String) (d : Dom), applyCurrent t (applyCurrent t d) = applyCurrent t d := by
  intro t d
  rw [applyCurrent, applyCurrent, applyTheme_eq, updateThemeUI_eq, applyTheme_eq,
    updateThemeUI_eq]
  have hcomp : setOptionActive t ∘ setOptionActive t = setOptionActive t :=
    funext fun o => rfl
  congr 1
  · cases d.highlightHref <;> rfl
  · cases d.heroSvgSrc <;> rfl
  · exact newButton_idem t d.themeButton
  · rw [List.map_map, hcomp]

/-- C5: an environment-signal change with a (truthy) persisted
preference is ignored; with no persisted preference it behaves as
`switchTheme` on `dark`/`light` according to the signal; consequently
an explicit user choice is never overridden by any later sequence of
environment-signal changes. -/
theorem onEnvironmentChange_precedence :
    ∀ (st : ThemeState) (isDark : Bool),
      (st.storage = none →
        onEnvironmentChange isDark st
          = switchTheme (if isDark then "dark" else "light") st)
      ∧ (∀ s : String, st.storage = some s → s ≠ "" →
          onEnvironmentChange isDark st = st)
      ∧ (∀ v : String, (themesOwn v).isSome = true → ∀ evs : List Bool,
          (evs.foldl (fun acc e => onEnvironmentChange e acc)
            (switchTheme v st)).currentTheme = v) := by
  intro st isDark
  refine ⟨?_, ?_, ?_⟩
  · intro h
    simp [onEnvironmentChange, storageTruthy, h]
  · intro s h hs
    have ht : storageTruthy st.storage = true := by
      rw [h]
      simpa [storageTruthy, bne_iff_ne] using hs
    exact onEnvironmentChange_saved isDark st ht
  · intro v hv evs
    rw [switchTheme_valid (themesOwn_truthy hv) st]
    rw [foldl_onEnvironmentChange_saved]
    simpa [storageTruthy, bne_iff_ne] using themes_ne_empty hv

/-- C5 witness: concrete runs of each leg of the precedence property. -/
theorem onEnvironmentChange_precedence_witness :
    st0.storage = none
    ∧ onEnvironmentChange true st0 = switchTheme (if true then "dark" else "light") st0
    ∧ stSaved.storage = some "dark"
    ∧ onEnvironmentChange false stSaved = stSaved
    ∧ (themesOwn "light").isSome = true
    ∧ ([false, true].foldl (fun acc e => onEnvironmentChange e acc)
        (switchTheme "light" st0)).currentTheme = "light" :=
  ⟨rfl, (onEnvironmentChange_precedence st0 true).1 rfl, rfl,
   (onEnvironmentChange_precedence stSaved false).2.1 "dark" rfl (by decide),
   rfl, (onEnvironmentChange_precedence st0 true).2.2 "light" rfl [false, true]⟩

/-- C10: an environment-signal change arriving with no persisted
preference runs the full `switchTheme` path and therefore persists the
derived variant, after which every later environment-signal change is
ignored even though the user never made an explicit selection. -/
theorem envChange_persists_preference :
    ∀ (st : ThemeState) (isDark : Bool), st.storage = none →
      (onEnvironmentChange isDark st).storage
          = some (if isDark then "dark" else "light")
      ∧ ∀ evs : List Bool,
          evs.foldl (fun acc e => onEnvironmentChange e acc)
              (onEnvironmentChange isDark st)
            = onEnvironmentChange isDark st := by
  intro st isDark h
  have hv : (themesOwn (if isDark then "dark" else "light")).isSome = true := by
    cases isDark <;> rfl
  have hswitch : onEnvironmentChange isDark st
      = switchTheme (if isDark then "dark" else "light") st := by
    simp [onEnvironmentChange, storageTruthy, h]
  have hstore : (onEnvironmentChange isDark st).storage
      = some (if isDark then "dark" else "light") := by
    rw [hswitch, switchTheme_valid (themesOwn_truthy hv) st]
  refine ⟨hstore, fun evs => ?_⟩
  apply foldl_onEnvironmentChange_saved
  rw [hstore]
  simpa [storageTruthy, bne_iff_ne] using themes_ne_empty hv

/-- C10 witness: a first dark notification on a fresh state persists
`dark`, and two later notifications change nothing. -/
theorem envChange_persists_preference_witness :
    st0.storage = none
    ∧ (onEnvironmentChange true st0).storage = some (if true then "dark" else "light")
    ∧ [false, false].foldl (fun acc e => onEnvironmentChange e acc)
        (onEnvironmentChange true st0) = onEnvironmentChange true st0 :=
  ⟨rfl, (envChange_persists_preference st0 true rfl).1,
   (envChange_persists_preference st0 true rfl).2 [false, false]⟩

end PagesContent
